import Mathlib

/-!
# Shallow embedding of the clinicai_score scoring core

This file embeds the scoring engine (`calculateScore`, `pickFourChecks` and
their helpers) and the site classifier (`classifySite`) of the repository in
Lean 4 and proves the frozen claims about them.

Modelling conventions:
* JavaScript numbers are modelled as rationals (`ℚ`); all quantities the code
  manipulates are small exact decimals/ratios for which double arithmetic and
  rational arithmetic agree on every comparison and rounding the code performs.
* `Math.round` is round-half-up: `⌊x + 1/2⌋` (`jsRound` below, implemented with
  the computable `Rat.floor`).
* JavaScript strings are Lean `String`s; `.length`, `.slice` count code points
  (all characters appearing in the vocabularies and in the test inputs are in
  the BMP, where this agrees with UTF-16 code-unit counting).
* `String.prototype.includes` is substring containment (`jsIncludes`);
  `toLowerCase` is modelled per-character on the ASCII range (the only cased
  characters appearing in the vocabulary tables and inputs).
* The regexes of the source are modelled by dedicated decidable matchers:
  `/\s+/g` replacement (`normalizeText`), `/sitemap/i`, `/faq/i`,
  `/FAQPage/i`, the medical-schema alternation, and the phone-number pattern
  `(\+?\d{1,3}[\s-]?)?(\d{2,3}[\s-]?)?\d{3,4}[\s-]?\d{4}` (an unanchored
  search for it succeeds iff its mandatory tail `\d{3,4}[\s-]?\d{4}` matches
  somewhere, the leading groups being optional).
* `Array.prototype.sort` is a stable sort; it is modelled by
  `List.insertionSort r` where `r a b` holds iff the JS comparator returns a
  value `≤ 0` on `(a, b)` (Mathlib's `orderedInsert` puts the earlier element
  first exactly on ties, which is stability).
-/

-- The Batteries rational-number operations are `@[irreducible]`, which blocks
-- `decide` from evaluating concrete scores; restore the default reducibility
-- for this development (this has no effect on the kernel or on soundness).
set_option allowUnsafeReducibility true

attribute [local semireducible] Rat.add Rat.mul Rat.inv Rat.sub Rat.div Rat.neg

-- Concrete pages carry bodies of several hundred characters; evaluating the
-- scoring pipeline on them by `decide` needs a deeper recursion budget.
set_option maxRecDepth 1000000

namespace ClinicAI

/-! ## Numeric helpers -/

/-- `Math.round` of JavaScript: round half toward `+∞`. -/
def jsRound (q : ℚ) : ℤ := (q + 1/2).floor

/-- `clamp` from the source (on raw rational scores):
`clamp(n, min, max) = Math.max(min, Math.min(max, n))`. -/
def clamp (n mn mx : ℚ) : ℚ := max mn (min mx n)

/-- `clamp` applied to already-rounded (integer) values. -/
def clampZ (n mn mx : ℤ) : ℤ := max mn (min mx n)

/-! ## Text helpers -/

/-- Whitespace class (`\s` for the characters that can actually occur here). -/
def isWsChar (c : Char) : Bool :=
  c = ' ' || c = '\t' || c = '\n' || c = '\r' || c = '\x0b' || c = '\x0c'

/-- One pass of `String.replace(/\s+/g, ' ')`: every maximal whitespace run
becomes a single space.  The flag records whether the previous character was
whitespace. -/
def collapseWs : Bool → List Char → List Char
  | _, [] => []
  | prevWs, c :: cs =>
    if isWsChar c then
      if prevWs then collapseWs true cs else ' ' :: collapseWs true cs
    else
      c :: collapseWs false cs

/-- `String.prototype.trim` on a character list. -/
def trimChars (l : List Char) : List Char :=
  ((l.dropWhile isWsChar).reverse.dropWhile isWsChar).reverse

/-- `normalizeText` from the source: `(text || '').replace(/\s+/g, ' ').trim()`. -/
def normalizeText (s : String) : String := String.mk (trimChars (collapseWs false s.data))

/-- `String.prototype.trim`. -/
def trimStr (s : String) : String := String.mk (trimChars s.data)

/-- ASCII `toLowerCase` on one character (the cased characters occurring in the
vocabulary tables and in all inputs are ASCII). -/
def lowerChar (c : Char) : Char := c.toLower

/-- `toLowerCase` on a character list. -/
def lowerStr (l : List Char) : List Char := l.map lowerChar

/-- Is `needle` a prefix of `hay`? -/
def isPrefixOfB : List Char → List Char → Bool
  | [], _ => true
  | _ :: _, [] => false
  | a :: as, b :: bs => a == b && isPrefixOfB as bs

/-- `String.prototype.includes` on character lists: substring containment.
In particular every string includes the empty string. -/
def jsIncludes (hay needle : List Char) : Bool :=
  match hay with
  | [] => needle.isEmpty
  | _ :: t => isPrefixOfB needle hay || jsIncludes t needle

/-- `containsAny` from the source: case-insensitive containment of any needle. -/
def containsAny (text : String) (needles : List String) : Bool :=
  needles.any fun n => jsIncludes (lowerStr text.data) (lowerStr n.data)

/-- Case-insensitive regex test for a fixed literal word, e.g. `/sitemap/i`. -/
def testCI (word : String) (s : String) : Bool :=
  jsIncludes (lowerStr s.data) (lowerStr word.data)

/-- `Array.prototype.join(' ')`. -/
def joinSp (l : List String) : String := String.intercalate " " l

/-! ### Phone-number pattern

`/(\+?\d{1,3}[\s-]?)?(\d{2,3}[\s-]?)?\d{3,4}[\s-]?\d{4}/.test(body)`:
since the two leading groups are optional, the unanchored test succeeds iff
`\d{3,4}[\s-]?\d{4}` matches at some position. -/

def isDigitChar (c : Char) : Bool := '0' ≤ c && c ≤ '9'

def isSepChar (c : Char) : Bool := isWsChar c || c = '-'

/-- Consume exactly `n` digits, returning the rest of the input. -/
def takeDigits : Nat → List Char → Option (List Char)
  | 0, l => some l
  | _ + 1, [] => none
  | n + 1, c :: l => if isDigitChar c then takeDigits n l else none

/-- Does `\d{4}` match at the head of `l`? -/
def fourDigitsAt (l : List Char) : Bool := (takeDigits 4 l).isSome

/-- Does `[\s-]?\d{4}` match at the head of `l`? -/
def sepFourAt (l : List Char) : Bool :=
  fourDigitsAt l ||
    match l with
    | [] => false
    | c :: r => isSepChar c && fourDigitsAt r

/-- Does `\d{3,4}[\s-]?\d{4}` match at the head of `l`? -/
def phoneAt (l : List Char) : Bool :=
  (match takeDigits 3 l with | some r => sepFourAt r | none => false) ||
  (match takeDigits 4 l with | some r => sepFourAt r | none => false)

/-- Unanchored search for the phone pattern. -/
def hasPhone : List Char → Bool
  | [] => false
  | l@(_ :: t) => phoneAt l || hasPhone t

/-! ## Data model (`types.ts`) -/

/-- `PageData` from `types.ts`. -/
structure PageData where
  url : String
  title : String
  description : String
  h1 : List String
  h2 : List String
  bodyText : String
  hasCanonical : Bool
  hasViewport : Bool
  hasOgTags : Bool
  hasSchema : Bool
  schemaTypes : List String
  internalLinks : List String
  faqCount : Nat
deriving DecidableEq

/-- The two supported locales. -/
inductive Locale where
  | ko
  | ja
deriving DecidableEq

/-- `ScoreInput` from the scoring module. -/
structure ScoreInput where
  hospitalName : String
  keywords : List String
  locale : Locale

/-- `ScoreCheckItem` from `types.ts`. -/
structure ScoreCheckItem where
  key : String
  ok : Bool
  label : String
deriving DecidableEq

/-- `ScoreCategory` from `types.ts`; the source field `structure` is a Lean
keyword and is rendered as `structure_`. -/
structure ScoreCategory where
  relevance : ℤ
  structure_ : ℤ
  indexing : ℤ
  trust : ℤ
  faq_schema : ℤ
deriving DecidableEq

/-- The `caps` record of `ScoreResult.details` (absent entries are `none`). -/
structure Caps where
  totalCap : Option ℤ := none
  indexingCap : Option ℤ := none
  trustCap : Option ℤ := none
deriving DecidableEq

/-- The `metrics` record of `ScoreResult.details`. -/
structure Metrics where
  pagesAnalyzed : Nat
  validPages : Nat
  validRatio : ℚ
  strongPages : Nat
deriving DecidableEq

/-- The `checks` record of `ScoreResult.details`. -/
structure ChecksByCategory where
  relevance : List ScoreCheckItem
  structure_ : List ScoreCheckItem
  indexing : List ScoreCheckItem
  trust : List ScoreCheckItem
  faq_schema : List ScoreCheckItem
deriving DecidableEq

/-- `ScoreResult.details`.  In the TS source `checks` and `caps` are optional
fields that the empty-input branch omits; this is modelled by `none` /
an all-`none` `Caps`. -/
structure ScoreDetails where
  signals : List String
  metrics : Metrics
  checks : Option ChecksByCategory := none
  caps : Caps := {}
deriving DecidableEq

/-- `ScoreResult` from `types.ts`. -/
structure ScoreResult where
  total : ℤ
  categories : ScoreCategory
  details : ScoreDetails
deriving DecidableEq

/-! ## Coverage scoring helpers (`score.ts`) -/

/-- `coverageFactor` from the source. -/
def coverageFactor (coverage : ℚ) : ℚ :=
  if coverage ≥ 1/2 then 1
  else if coverage ≥ 3/10 then 7/10
  else if coverage ≥ 1/10 then 2/5
  else 0

/-- `scoreByCoverage` from the source (arguments in source order; the source's
optional `strongObservedPages`/`minCoverage` are explicit here). -/
def scoreByCoverage (pagesAnalyzed observedPages strongObservedPages : Nat)
    (basePoints : ℚ) (minCoverage : Option ℚ) : ℚ :=
  if pagesAnalyzed ≤ 0 then 0
  else
    let weightedObserved : ℚ :=
      min (pagesAnalyzed : ℚ) ((observedPages : ℚ) + (strongObservedPages : ℚ) * (1/2))
    let coverage : ℚ := weightedObserved / (pagesAnalyzed : ℚ)
    match minCoverage with
    | some m => if coverage < m then 0 else basePoints * coverageFactor coverage
    | none => basePoints * coverageFactor coverage

/-- `isValidPage` from the source. -/
def isValidPage (page : PageData) : Bool := 400 ≤ (normalizeText page.bodyText).length

/-- The locale-keyed strong-signal vocabulary of `isStrongSignalPage`. -/
def strongPatterns : Locale → List String
  | .ko => ["원인", "증상", "치료", "시술", "부작용", "주의", "회복", "비용", "가격", "faq", "질문"]
  | .ja => ["原因", "症状", "治療", "施術", "副作用", "注意", "回復", "費用", "料金", "faq", "質問"]

/-- `isStrongSignalPage` from the source: at least two vocabulary hits across
title, H1, H2 and body. -/
def isStrongSignalPage (page : PageData) (locale : Locale) : Bool :=
  let combined :=
    page.title ++ "\n" ++ joinSp page.h1 ++ "\n" ++ joinSp page.h2 ++ "\n" ++ page.bodyText
  let hay := lowerStr combined.data
  let hits := (strongPatterns locale).foldl
    (fun count term => if jsIncludes hay (lowerStr term.data) then count + 1 else count) 0
  2 ≤ hits

/-- `weightedCoverage` from the source. -/
def weightedCoverage (pagesAnalyzed observedPages strongObservedPages : Nat) : ℚ :=
  if pagesAnalyzed ≤ 0 then 0
  else
    min (pagesAnalyzed : ℚ) ((observedPages : ℚ) + (strongObservedPages : ℚ) * (1/2)) /
      (pagesAnalyzed : ℚ)

/-- `CheckCandidate` from the source (`ScoreCheckItem` plus weight/coverage). -/
structure CheckCandidate where
  key : String
  ok : Bool
  label : String
  weight : ℚ
  coverage : ℚ
deriving DecidableEq

/-- `makeCheckCandidate` from the source. -/
def makeCheckCandidate (key label : String) (pagesAnalyzed observedPages strongObservedPages : Nat)
    (okMinCoverage : Option ℚ) (weight : ℚ) : CheckCandidate :=
  let coverage := weightedCoverage pagesAnalyzed observedPages strongObservedPages
  let ok := match okMinCoverage with
    | none => decide (0 < observedPages)
    | some m => decide (m ≤ coverage)
  { key := key, ok := ok, label := label, weight := weight, coverage := coverage }

/-- Order in which the stable JS sort leaves the failing candidates: the
comparator `(b.weight - a.weight) || (a.coverage - b.coverage)` is `≤ 0` on
`(a, b)` iff weight is strictly larger or weights tie and coverage is `≤`. -/
def failOrder (a b : CheckCandidate) : Prop :=
  b.weight < a.weight ∨ (a.weight = b.weight ∧ a.coverage ≤ b.coverage)

/-- Order for the passing candidates: comparator
`(b.weight - a.weight) || (b.coverage - a.coverage)`. -/
def passOrder (a b : CheckCandidate) : Prop :=
  b.weight < a.weight ∨ (a.weight = b.weight ∧ b.coverage ≤ a.coverage)

instance : DecidableRel failOrder := fun a b => by unfold failOrder; infer_instance

instance : DecidableRel passOrder := fun a b => by unfold passOrder; infer_instance

/-- The backfill loop of `pickFourChecks`: walk the remaining candidates, stop
at four chosen, skip duplicate keys. -/
def backfillChecks (chosen : List CheckCandidate) : List CheckCandidate → List CheckCandidate
  | [] => chosen
  | c :: rest =>
    if 4 ≤ chosen.length then chosen
    else if chosen.any fun x => x.key == c.key then backfillChecks chosen rest
    else backfillChecks (chosen ++ [c]) rest

/-- The projection `({key, ok, label}) => ({key, ok, label})` of the final map
in `pickFourChecks`. -/
def toCheckItem (c : CheckCandidate) : ScoreCheckItem :=
  { key := c.key, ok := c.ok, label := c.label }

/-- `pickFourChecks` from the source. -/
def pickFourChecks (candidates : List CheckCandidate) : List ScoreCheckItem :=
  let fails := List.insertionSort failOrder (candidates.filter fun c => !c.ok)
  let passes := List.insertionSort passOrder (candidates.filter fun c => c.ok)
  let chosen := fails.take 2 ++ passes.take 2
  let chosen2 :=
    if chosen.length < 4 then backfillChecks chosen (fails.drop 2 ++ passes.drop 2) else chosen
  (chosen2.take 4).map toCheckItem

/-! ## Per-page predicates of `calculateScore` -/

/-- `keywordList`: trimmed keywords with empties dropped (`filter(Boolean)`). -/
def keywordListOf (keywords : List String) : List String :=
  (keywords.map trimStr).filter fun k => !k.data.isEmpty

/-- `keywordLower`: the keyword list lower-cased. -/
def keywordLowerOf (keywords : List String) : List String :=
  (keywordListOf keywords).map fun k => String.mk (lowerStr k.data)

/-- The predicate of the `titleHasHospital` check: `p.title.includes(hospitalName)`. -/
def titleIncludesHospital (hospitalName : String) (p : PageData) : Bool :=
  jsIncludes p.title.data hospitalName.data

/-- `pageHasAnyKeyword` from the source. -/
def pageHasAnyKeyword (keywords : List String) (p : PageData) : Bool :=
  let combined :=
    p.title ++ "\n" ++ joinSp p.h1 ++ "\n" ++ joinSp p.h2 ++ "\n" ++ p.url ++ "\n" ++ p.bodyText
  let hay := lowerStr combined.data
  (keywordLowerOf keywords).any fun k => jsIncludes hay k.data

/-- `pageBodyTopHasKeyword` from the source: keyword within the first 320
characters of the normalized body. -/
def pageBodyTopHasKeyword (keywords : List String) (p : PageData) : Bool :=
  let top := lowerStr ((normalizeText p.bodyText).data.take 320)
  (keywordLowerOf keywords).any fun k => jsIncludes top k.data

/-- `pageH1HasKeyword` from the source. -/
def pageH1HasKeyword (keywords : List String) (p : PageData) : Bool :=
  let h1Text := lowerStr (joinSp p.h1).data
  (keywordLowerOf keywords).any fun k => jsIncludes h1Text k.data

/-- `addressSignalsKo` / `addressSignalsJa` from the source. -/
def addressSignals : Locale → List String
  | .ko => ["주소", "오시는 길", "위치", "진료시간", "영업시간", "전화", "문의"]
  | .ja => ["住所", "アクセス", "所在地", "診療時間", "営業時間", "電話", "お問い合わせ"]

/-- `pageHasContactInfo` from the source: phone-number pattern or a locale
address cue in the normalized body. -/
def pageHasContactInfo (locale : Locale) (p : PageData) : Bool :=
  let body := normalizeText p.bodyText
  hasPhone body.data || containsAny body (addressSignals locale)

/-- `riskTermsKo` / `riskTermsJa` from the source. -/
def riskTerms : Locale → List String
  | .ko => ["부작용", "주의", "주의사항", "금기", "합병증", "회복", "사후관리", "통증", "붓기", "멍"]
  | .ja => ["副作用", "注意", "注意事項", "禁忌", "合併症", "回復", "アフターケア", "痛み", "腫れ", "内出血"]

/-- `pageHasRiskInfo` from the source. -/
def pageHasRiskInfo (locale : Locale) (p : PageData) : Bool :=
  containsAny (normalizeText p.bodyText) (riskTerms locale)

/-- `docTermsKo` / `docTermsJa` from the source. -/
def docTerms : Locale → List String
  | .ko => ["의료진", "원장", "의사", "전문의", "경력", "학회", "자격"]
  | .ja => ["医師", "院長", "医者", "専門医", "経歴", "学会", "資格"]

/-- `pageHasDoctorInfo` from the source (title, H1 and body only). -/
def pageHasDoctorInfo (locale : Locale) (p : PageData) : Bool :=
  let combined := p.title ++ "\n" ++ joinSp p.h1 ++ "\n" ++ p.bodyText
  containsAny combined (docTerms locale)

/-- `pageHasFlow` from the source: a cause term, a symptom term and a
treatment term all present. -/
def pageHasFlow (locale : Locale) (p : PageData) : Bool :=
  let text := joinSp p.h1 ++ " " ++ joinSp p.h2 ++ " " ++ normalizeText p.bodyText
  let hay := lowerStr text.data
  let cause := match locale with | .ko => ["원인"] | .ja => ["原因"]
  let symptom := match locale with | .ko => ["증상"] | .ja => ["症状"]
  let treatment := match locale with | .ko => ["치료", "시술", "관리"] | .ja => ["治療", "施術"]
  (cause.any fun t => jsIncludes hay (lowerStr t.data)) &&
  (symptom.any fun t => jsIncludes hay (lowerStr t.data)) &&
  (treatment.any fun t => jsIncludes hay (lowerStr t.data))

/-- `pageHasFaqSchema` from the source: a schema type matching `/faq/i` or
`/FAQPage/i`. -/
def pageHasFaqSchema (p : PageData) : Bool :=
  p.schemaTypes.any fun t => testCI "faq" t || testCI "FAQPage" t

/-- `pageHasMedicalSchema` from the source. -/
def pageHasMedicalSchema (p : PageData) : Bool :=
  p.schemaTypes.any fun t =>
    testCI "MedicalClinic" t || testCI "MedicalOrganization" t || testCI "Hospital" t ||
    testCI "Physician" t || testCI "LocalBusiness" t || testCI "Organization" t

/-! ## Site-wide aggregates of `calculateScore` -/

/-- The valid pages (`pages.filter(isValidPage)`). -/
def validPagesOf (pages : List PageData) : List PageData := pages.filter isValidPage

/-- The strong-signal pages (`validPages.filter(isStrongSignalPage)`). -/
def strongPagesOf (pages : List PageData) (locale : Locale) : List PageData :=
  (validPagesOf pages).filter fun p => isStrongSignalPage p locale

/-- The `strongObserved` closure from the source: how many valid pages and how
many strong pages satisfy the predicate. -/
def observedCounts (validPages strongPages : List PageData) (pred : PageData → Bool) :
    Nat × Nat :=
  ((validPages.filter pred).length, (strongPages.filter pred).length)

/-- `totalFaq`: summed FAQ count over valid pages. -/
def totalFaqOf (pages : List PageData) : Nat :=
  ((validPagesOf pages).map PageData.faqCount).sum

/-- `hasFaqSchemaAny` from the source. -/
def hasFaqSchemaAnyOf (pages : List PageData) : Bool :=
  (validPagesOf pages).any pageHasFaqSchema

/-- `hasMedicalSchemaAny` from the source. -/
def hasMedicalSchemaAnyOf (pages : List PageData) : Bool :=
  (validPagesOf pages).any pageHasMedicalSchema

/-- `hasCanonicalAny` from the source (valid pages only). -/
def hasCanonicalAnyOf (pages : List PageData) : Bool :=
  (validPagesOf pages).any PageData.hasCanonical

/-- `hasSitemapProxy` from the source (all pages, URLs and internal links). -/
def hasSitemapProxyOf (pages : List PageData) : Bool :=
  (pages.any fun p => testCI "sitemap" p.url) ||
  (pages.any fun p => p.internalLinks.any (testCI "sitemap"))

/-- `riskInfoObserved.observedPages` from the source. -/
def riskObservedOf (pages : List PageData) (locale : Locale) : Nat :=
  ((validPagesOf pages).filter (pageHasRiskInfo locale)).length

/-! ## Labels -/

/-- The locale-specific label table from the source. -/
structure Labels where
  titleKeyword : String
  titleHospital : String
  h1Keyword : String
  servicePage : String
  locationInfo : String
  metaDescription : String
  canonical : String
  sitemap : String
  ogTags : String
  viewport : String
  singleH1 : String
  richH2 : String
  contentLength : String
  internalLinks : String
  headingMix : String
  doctorInfo : String
  contactInfo : String
  riskInfo : String
  semanticFlow : String
  faqSchema : String
  medicalSchema : String
  faq5 : String
  faq3 : String

/-- The `labels` table of the source for each locale. -/
def labelsFor : Locale → Labels
  | .ko =>
    { titleKeyword := "Title에 진료 키워드 포함"
      titleHospital := "Title에 병원명 포함"
      h1Keyword := "H1에 진료 키워드 포함"
      servicePage := "진료/시술 페이지 존재"
      locationInfo := "주소/전화/진료시간 표기"
      metaDescription := "메타 설명(meta) 충분"
      canonical := "canonical 존재"
      sitemap := "sitemap 존재"
      ogTags := "OG 태그 존재"
      viewport := "모바일 viewport 설정"
      singleH1 := "H1 1개 구조 유지"
      richH2 := "H2 3개 이상 구성"
      contentLength := "본문 길이(900자+) 확보"
      internalLinks := "내부 링크 충분"
      headingMix := "헤딩 계층(H1/H2) 구성"
      doctorInfo := "의료진/자격 정보 확인"
      contactInfo := "연락처/진료시간 확인"
      riskInfo := "부작용/주의/사후관리 단서"
      semanticFlow := "원인-증상-치료 흐름 단서"
      faqSchema := "FAQPage 스키마 존재"
      medicalSchema := "Medical/Organization 스키마"
      faq5 := "FAQ 5문항 이상 페이지"
      faq3 := "FAQ 3문항 이상 페이지" }
  | .ja =>
    { titleKeyword := "Titleに診療キーワードを含む"
      titleHospital := "Titleに医院名を含む"
      h1Keyword := "H1に診療キーワードを含む"
      servicePage := "診療/施術ページが存在"
      locationInfo := "住所/電話/診療時間の表記"
      metaDescription := "メタ説明(meta)が十分"
      canonical := "canonicalが存在"
      sitemap := "sitemapが存在"
      ogTags := "OGタグが存在"
      viewport := "モバイルviewport設定"
      singleH1 := "H1が1つの構造"
      richH2 := "H2が3つ以上"
      contentLength := "本文量(900字+)を確保"
      internalLinks := "内部リンクが十分"
      headingMix := "見出し階層(H1/H2)を構成"
      doctorInfo := "医師/資格情報の記載"
      contactInfo := "連絡先/診療時間の記載"
      riskInfo := "副作用/注意/アフターケア"
      semanticFlow := "原因-症状-治療の流れ"
      faqSchema := "FAQPageスキーマが存在"
      medicalSchema := "Medical/Organizationスキーマ"
      faq5 := "FAQが5問以上のページ"
      faq3 := "FAQが3問以上のページ" }

/-! ## Category raw scores (`relevance`, `structure`, `indexing`, `trust`,
`faq_schema` before caps and confidence scaling) -/

/-- The six relevance contributions summed and clamped to `[0, 20]`. -/
def relevanceRaw (pages : List PageData) (input : ScoreInput) : ℚ :=
  let pa := pages.length
  let v := validPagesOf pages
  let s := strongPagesOf pages input.locale
  let titleHasHospital := observedCounts v s (titleIncludesHospital input.hospitalName)
  let titleHasKeyword := observedCounts v s fun p => containsAny p.title (keywordListOf input.keywords)
  let h1Matches := observedCounts v s (pageH1HasKeyword input.keywords)
  let bodyTop := observedCounts v s (pageBodyTopHasKeyword input.keywords)
  let svc := observedCounts v s (pageHasAnyKeyword input.keywords)
  let loc := observedCounts v s (pageHasContactInfo input.locale)
  clamp
    (scoreByCoverage pa titleHasHospital.1 titleHasHospital.2 6 none +
     scoreByCoverage pa titleHasKeyword.1 titleHasKeyword.2 4 none +
     scoreByCoverage pa h1Matches.1 h1Matches.2 4 none +
     scoreByCoverage pa bodyTop.1 bodyTop.2 3 (some (3/10)) +
     scoreByCoverage pa svc.1 svc.2 3 none +
     scoreByCoverage pa loc.1 loc.2 2 (some (1/2))) 0 20

/-- The five structure contributions summed and clamped to `[0, 20]`. -/
def structureRaw (pages : List PageData) (input : ScoreInput) : ℚ :=
  let pa := pages.length
  let v := validPagesOf pages
  let s := strongPagesOf pages input.locale
  let singleH1 := observedCounts v s fun p => p.h1.length = 1
  let richH2 := observedCounts v s fun p => 3 ≤ p.h2.length
  let enoughContent := observedCounts v s fun p => 900 ≤ (normalizeText p.bodyText).length
  let internalLinking := observedCounts v s fun p => 6 ≤ p.internalLinks.length
  let headingMix := observedCounts v s fun p => 1 ≤ p.h1.length ∧ 1 ≤ p.h2.length
  clamp
    (scoreByCoverage pa singleH1.1 singleH1.2 5 (some (3/10)) +
     scoreByCoverage pa richH2.1 richH2.2 4 (some (3/10)) +
     scoreByCoverage pa enoughContent.1 enoughContent.2 6 (some (3/10)) +
     scoreByCoverage pa internalLinking.1 internalLinking.2 3 (some (1/2)) +
     scoreByCoverage pa headingMix.1 headingMix.2 2 (some (3/10))) 0 20

/-- The five indexing contributions summed and clamped to `[0, 20]` (before the
indexing cap). -/
def indexingRaw (pages : List PageData) (input : ScoreInput) : ℚ :=
  let pa := pages.length
  let v := validPagesOf pages
  let s := strongPagesOf pages input.locale
  let metaDesc := observedCounts v s fun p => 30 ≤ (normalizeText p.description).length
  let canonical := observedCounts v s PageData.hasCanonical
  let sitemapObserved := if hasSitemapProxyOf pages then 1 else 0
  let og := observedCounts v s PageData.hasOgTags
  let viewport := observedCounts v s PageData.hasViewport
  clamp
    (scoreByCoverage pa metaDesc.1 metaDesc.2 5 (some (3/10)) +
     scoreByCoverage pa canonical.1 canonical.2 7 (some (3/10)) +
     scoreByCoverage pa sitemapObserved 0 4 none +
     scoreByCoverage pa og.1 og.2 2 (some (1/2)) +
     scoreByCoverage pa viewport.1 viewport.2 2 (some (1/2))) 0 20

/-- The four trust contributions summed and clamped to `[0, 20]` (before the
trust cap). -/
def trustRaw (pages : List PageData) (input : ScoreInput) : ℚ :=
  let pa := pages.length
  let v := validPagesOf pages
  let s := strongPagesOf pages input.locale
  let doctor := observedCounts v s (pageHasDoctorInfo input.locale)
  let contact := observedCounts v s (pageHasContactInfo input.locale)
  let risk := observedCounts v s (pageHasRiskInfo input.locale)
  let flow := observedCounts v s (pageHasFlow input.locale)
  clamp
    (scoreByCoverage pa doctor.1 doctor.2 6 (some (3/10)) +
     scoreByCoverage pa contact.1 contact.2 3 (some (1/2)) +
     scoreByCoverage pa risk.1 risk.2 7 none +
     scoreByCoverage pa flow.1 flow.2 4 none) 0 20

/-- The four FAQ/schema contributions summed and clamped to `[0, 20]`. -/
def faqSchemaRaw (pages : List PageData) (input : ScoreInput) : ℚ :=
  let pa := pages.length
  let v := validPagesOf pages
  let s := strongPagesOf pages input.locale
  let faqSchema := observedCounts v s pageHasFaqSchema
  let medicalSchema := observedCounts v s pageHasMedicalSchema
  let faq5 := observedCounts v s fun p => 5 ≤ p.faqCount
  let faq3 := observedCounts v s fun p => 3 ≤ p.faqCount
  clamp
    (scoreByCoverage pa faqSchema.1 faqSchema.2 8 none +
     scoreByCoverage pa medicalSchema.1 medicalSchema.2 6 none +
     scoreByCoverage pa faq5.1 faq5.2 4 none +
     scoreByCoverage pa faq3.1 faq3.2 2 none) 0 20

/-! ## Check candidates (push order of the source) -/

/-- The relevance check candidates, in push order (the `bodyTop` contribution
has no candidate). -/
def relevanceChecks (pages : List PageData) (input : ScoreInput) : List CheckCandidate :=
  let pa := pages.length
  let v := validPagesOf pages
  let s := strongPagesOf pages input.locale
  let lb := labelsFor input.locale
  let titleHasHospital := observedCounts v s (titleIncludesHospital input.hospitalName)
  let titleHasKeyword := observedCounts v s fun p => containsAny p.title (keywordListOf input.keywords)
  let h1Matches := observedCounts v s (pageH1HasKeyword input.keywords)
  let svc := observedCounts v s (pageHasAnyKeyword input.keywords)
  let loc := observedCounts v s (pageHasContactInfo input.locale)
  [makeCheckCandidate "title_has_hospital" lb.titleHospital pa titleHasHospital.1 titleHasHospital.2 (some (1/10)) 2,
   makeCheckCandidate "title_has_keyword" lb.titleKeyword pa titleHasKeyword.1 titleHasKeyword.2 (some (3/10)) 3,
   makeCheckCandidate "h1_matches_keyword" lb.h1Keyword pa h1Matches.1 h1Matches.2 (some (3/10)) 3,
   makeCheckCandidate "has_service_page" lb.servicePage pa svc.1 svc.2 (some (1/10)) 4,
   makeCheckCandidate "has_location_info" lb.locationInfo pa loc.1 loc.2 (some (1/2)) 1]

/-- The structure check candidates, in push order. -/
def structureChecks (pages : List PageData) (input : ScoreInput) : List CheckCandidate :=
  let pa := pages.length
  let v := validPagesOf pages
  let s := strongPagesOf pages input.locale
  let lb := labelsFor input.locale
  let singleH1 := observedCounts v s fun p => p.h1.length = 1
  let richH2 := observedCounts v s fun p => 3 ≤ p.h2.length
  let enoughContent := observedCounts v s fun p => 900 ≤ (normalizeText p.bodyText).length
  let internalLinking := observedCounts v s fun p => 6 ≤ p.internalLinks.length
  let headingMix := observedCounts v s fun p => 1 ≤ p.h1.length ∧ 1 ≤ p.h2.length
  [makeCheckCandidate "good_h1_structure" lb.singleH1 pa singleH1.1 singleH1.2 (some (3/10)) 3,
   makeCheckCandidate "rich_h2_structure" lb.richH2 pa richH2.1 richH2.2 (some (3/10)) 2,
   makeCheckCandidate "sufficient_content_length" lb.contentLength pa enoughContent.1 enoughContent.2 (some (3/10)) 4,
   makeCheckCandidate "internal_linking_ok" lb.internalLinks pa internalLinking.1 internalLinking.2 (some (1/2)) 1,
   makeCheckCandidate "heading_hierarchy_ok" lb.headingMix pa headingMix.1 headingMix.2 (some (3/10)) 2]

/-- The indexing check candidates, in push order. -/
def indexingChecks (pages : List PageData) (input : ScoreInput) : List CheckCandidate :=
  let pa := pages.length
  let v := validPagesOf pages
  let s := strongPagesOf pages input.locale
  let lb := labelsFor input.locale
  let metaDesc := observedCounts v s fun p => 30 ≤ (normalizeText p.description).length
  let canonical := observedCounts v s PageData.hasCanonical
  let sitemapObserved := if hasSitemapProxyOf pages then 1 else 0
  let og := observedCounts v s PageData.hasOgTags
  let viewport := observedCounts v s PageData.hasViewport
  [makeCheckCandidate "has_meta_description" lb.metaDescription pa metaDesc.1 metaDesc.2 (some (3/10)) 2,
   makeCheckCandidate "has_canonical" lb.canonical pa canonical.1 canonical.2 (some (3/10)) 4,
   makeCheckCandidate "has_sitemap" lb.sitemap pa sitemapObserved 0 (some (1/100)) 3,
   makeCheckCandidate "og_ok" lb.ogTags pa og.1 og.2 (some (1/2)) 1,
   makeCheckCandidate "viewport_ok" lb.viewport pa viewport.1 viewport.2 (some (1/2)) 1]

/-- The trust check candidates, in push order. -/
def trustChecks (pages : List PageData) (input : ScoreInput) : List CheckCandidate :=
  let pa := pages.length
  let v := validPagesOf pages
  let s := strongPagesOf pages input.locale
  let lb := labelsFor input.locale
  let doctor := observedCounts v s (pageHasDoctorInfo input.locale)
  let contact := observedCounts v s (pageHasContactInfo input.locale)
  let risk := observedCounts v s (pageHasRiskInfo input.locale)
  let flow := observedCounts v s (pageHasFlow input.locale)
  [makeCheckCandidate "has_doctor_page" lb.doctorInfo pa doctor.1 doctor.2 (some (3/10)) 3,
   makeCheckCandidate "has_contact_hours_phone" lb.contactInfo pa contact.1 contact.2 (some (1/2)) 1,
   makeCheckCandidate "has_risk_info" lb.riskInfo pa risk.1 risk.2 (some (1/10)) 5,
   makeCheckCandidate "semantic_flow_ok" lb.semanticFlow pa flow.1 flow.2 (some (1/10)) 4]

/-- The FAQ/schema check candidates, in push order. -/
def faqSchemaChecks (pages : List PageData) (input : ScoreInput) : List CheckCandidate :=
  let pa := pages.length
  let v := validPagesOf pages
  let s := strongPagesOf pages input.locale
  let lb := labelsFor input.locale
  let faqSchema := observedCounts v s pageHasFaqSchema
  let medicalSchema := observedCounts v s pageHasMedicalSchema
  let faq5 := observedCounts v s fun p => 5 ≤ p.faqCount
  let faq3 := observedCounts v s fun p => 3 ≤ p.faqCount
  [makeCheckCandidate "has_faq_schema" lb.faqSchema pa faqSchema.1 faqSchema.2 (some (1/100)) 5,
   makeCheckCandidate "has_medical_schema" lb.medicalSchema pa medicalSchema.1 medicalSchema.2 (some (1/100)) 4,
   makeCheckCandidate "faq_count_5plus" lb.faq5 pa faq5.1 faq5.2 (some (1/10)) 3,
   makeCheckCandidate "faq_count_3plus" lb.faq3 pa faq3.1 faq3.2 (some (1/10)) 2]

/-! ## Signals -/

/-- `toFixed(2)` for the non-negative ratios logged in the signals. -/
def toFixed2 (r : ℚ) : String :=
  let m := (jsRound (r * 100)).toNat
  toString (m / 100) ++ "." ++ (if m % 100 < 10 then "0" else "") ++ toString (m % 100)

/-- `Number(x.toFixed(3))` for the non-negative `validRatio` metric. -/
def toFixed3Val (r : ℚ) : ℚ := ((jsRound (r * 1000) : ℤ) : ℚ) / 1000

/-- A conditional signal push. -/
def sigIf (b : Bool) (s : String) : List String := if b then [s] else []

/-- The ordered signal log of `calculateScore` (non-empty input), one chunk per
`signals.push` site of the source, in execution order. -/
def signalsOf (pages : List PageData) (input : ScoreInput) : List String :=
  let pa := pages.length
  let v := validPagesOf pages
  let s := strongPagesOf pages input.locale
  let validRatio : ℚ := (v.length : ℚ) / (pa : ℚ)
  let obs := fun pred => (observedCounts v s pred).1
  ["pages_analyzed:" ++ toString pa,
   "valid_pages:" ++ toString v.length,
   "valid_ratio:" ++ toFixed2 validRatio,
   "strong_pages:" ++ toString s.length] ++
  (sigIf (0 < obs (titleIncludesHospital input.hospitalName)) "title_has_hospital" ++
   (sigIf (0 < obs fun p => containsAny p.title (keywordListOf input.keywords)) "title_has_keyword" ++
   (sigIf (0 < obs (pageH1HasKeyword input.keywords)) "h1_matches_keyword" ++
   (sigIf (0 < obs (pageBodyTopHasKeyword input.keywords)) "body_top_keyword" ++
   (sigIf (0 < obs (pageHasAnyKeyword input.keywords)) "has_service_page" ++
   (sigIf (0 < obs (pageHasContactInfo input.locale)) "has_location_info" ++
   (sigIf (0 < obs fun p => p.h1.length = 1) "good_h1_structure" ++
   (sigIf (0 < obs fun p => 3 ≤ p.h2.length) "rich_h2_structure" ++
   (sigIf (0 < obs fun p => 900 ≤ (normalizeText p.bodyText).length) "sufficient_content_length" ++
   (sigIf (0 < obs fun p => 6 ≤ p.internalLinks.length) "internal_linking_ok" ++
   (sigIf (0 < obs fun p => 30 ≤ (normalizeText p.description).length) "has_meta_description" ++
   (sigIf (0 < obs PageData.hasCanonical) "has_canonical" ++
   (sigIf (hasSitemapProxyOf pages) "has_sitemap" ++
   (sigIf (0 < obs PageData.hasOgTags) "og_ok" ++
   (sigIf (0 < obs PageData.hasViewport) "viewport_ok" ++
   (sigIf (0 < obs (pageHasDoctorInfo input.locale)) "has_doctor_page" ++
   (sigIf (0 < obs (pageHasContactInfo input.locale)) "has_contact_hours_phone" ++
   (sigIf (0 < obs (pageHasRiskInfo input.locale)) "has_risk_info" ++
   (sigIf (0 < obs (pageHasFlow input.locale)) "has_cause_symptom_treatment_flow" ++
   (sigIf (0 < obs (pageHasFlow input.locale)) "semantic_flow_ok" ++
   (sigIf (0 < obs pageHasFaqSchema) "has_faq_schema" ++
   (sigIf (0 < obs pageHasMedicalSchema) "has_medical_schema" ++
   (sigIf (0 < obs fun p => 5 ≤ p.faqCount) "rich_faq_5plus" ++
   (sigIf (0 < obs fun p => 3 ≤ p.faqCount) "faq_3plus" ++
   (sigIf (hasFaqSchemaAnyOf pages) "cap_guard_faq_schema_ok" ++
   (sigIf (hasMedicalSchemaAnyOf pages) "schema_medical_present" ++
   sigIf (hasSitemapProxyOf pages) "sitemap_present"))))))))))))))))))))))))))

/-! ## Caps, confidence scaling, total -/

/-- The caps record of the source (lines 470-481). -/
def capsOf (pages : List PageData) (input : ScoreInput) : Caps :=
  { indexingCap :=
      if ¬hasSitemapProxyOf pages ∧ ¬hasCanonicalAnyOf pages then some 14 else none
    trustCap := if riskObservedOf pages input.locale = 0 then some 14 else none
    totalCap := if totalFaqOf pages < 3 ∧ ¬hasFaqSchemaAnyOf pages then some 80 else none }

/-- `confidenceFactor = 0.65 + 0.35 × validRatio`. -/
def confidenceFactor (validRatio : ℚ) : ℚ := 13/20 + 7/20 * validRatio

/-- Sum of the five category values. -/
def sumCats (c : ScoreCategory) : ℤ :=
  c.relevance + c.structure_ + c.indexing + c.trust + c.faq_schema

/-- One confidence-scaled category: `clamp(Math.round(raw * confidenceFactor), 0, 20)`. -/
def scaleCat (raw cf : ℚ) : ℤ := clampZ (jsRound (raw * cf)) 0 20

/-- One total-cap-rescaled category: `clamp(Math.round(scaled * factor), 0, 20)`. -/
def rescaleCat (s : ℤ) (factor : ℚ) : ℤ := clampZ (jsRound ((s : ℚ) * factor)) 0 20

/-- `x = Math.min(x, cap)` when a cap is present (applied to a raw score). -/
def applyCapQ (x : ℚ) : Option ℤ → ℚ
  | some c => min x (c : ℚ)
  | none => x

/-- `x = Math.min(x, cap)` when a cap is present (applied to a scaled score). -/
def applyCapZ (x : ℤ) : Option ℤ → ℤ
  | some c => min x c
  | none => x

/-- Lines 471-497 of the source: cap the raw indexing/trust scores, scale all
five categories by the confidence factor, and re-apply the category caps to
the scaled values. -/
def scaledCats (relevance structure_ indexing trust faq_schema validRatio : ℚ)
    (capIdx capTrust : Option ℤ) : ScoreCategory :=
  let cf := confidenceFactor validRatio
  { relevance := scaleCat relevance cf
    structure_ := scaleCat structure_ cf
    indexing := applyCapZ (scaleCat (applyCapQ indexing capIdx) cf) capIdx
    trust := applyCapZ (scaleCat (applyCapQ trust capTrust) cf) capTrust
    faq_schema := scaleCat faq_schema cf }

/-- The five categories rescaled by the total-cap factor. -/
def rescaledCats (s : ScoreCategory) (factor : ℚ) : ScoreCategory :=
  { relevance := rescaleCat s.relevance factor
    structure_ := rescaleCat s.structure_ factor
    indexing := rescaleCat s.indexing factor
    trust := rescaleCat s.trust factor
    faq_schema := rescaleCat s.faq_schema factor }

/-- Lines 499-510 of the source: sum the scaled categories and, when a total
cap is present and exceeded, rescale every category proportionally and
recompute the total as their sum. -/
def capTotal (s : ScoreCategory) : Option ℤ → ScoreCategory × ℤ
  | some c =>
    if c < sumCats s then
      let s2 := rescaledCats s ((c : ℚ) / ((sumCats s : ℤ) : ℚ))
      (s2, sumCats s2)
    else (s, sumCats s)
  | none => (s, sumCats s)

/-- Lines 469-512 of the source: apply the category caps, scale by the
confidence factor, re-apply the category caps, sum, apply the total cap by
proportional rescaling when exceeded, and clamp the final total. -/
def finalize (relevance structure_ indexing trust faq_schema validRatio : ℚ)
    (capIdx capTrust capTotal' : Option ℤ) : ScoreCategory × ℤ :=
  let s := scaledCats relevance structure_ indexing trust faq_schema validRatio capIdx capTrust
  let st := capTotal s capTotal'
  (st.1, clampZ (jsRound ((st.2 : ℤ) : ℚ)) 0 100)

/-- `calculateScore` from the source. -/
def calculateScore (pages : List PageData) (input : ScoreInput) : ScoreResult :=
  let pagesAnalyzed := pages.length
  if pagesAnalyzed = 0 then
    { total := 0
      categories := ⟨0, 0, 0, 0, 0⟩
      details := { signals := ["No pages analyzed"], metrics := ⟨0, 0, 0, 0⟩ } }
  else
    let validPagesCount := (validPagesOf pages).length
    let validRatio : ℚ := (validPagesCount : ℚ) / (pagesAnalyzed : ℚ)
    let caps := capsOf pages input
    let ft :=
      finalize (relevanceRaw pages input) (structureRaw pages input) (indexingRaw pages input)
        (trustRaw pages input) (faqSchemaRaw pages input) validRatio
        caps.indexingCap caps.trustCap caps.totalCap
    { total := ft.2
      categories := ft.1
      details :=
        { signals := signalsOf pages input
          metrics :=
            { pagesAnalyzed := pagesAnalyzed
              validPages := validPagesCount
              validRatio := toFixed3Val validRatio
              strongPages := (strongPagesOf pages input.locale).length }
          checks := some
            { relevance := pickFourChecks (relevanceChecks pages input)
              structure_ := pickFourChecks (structureChecks pages input)
              indexing := pickFourChecks (indexingChecks pages input)
              trust := pickFourChecks (trustChecks pages input)
              faq_schema := pickFourChecks (faqSchemaChecks pages input) }
          caps := caps } }

/-! ## Site classifier (`classify.ts`) -/

/-- `isValidPageForClassification` from the source. -/
def isValidPageForClassification (page : PageData) : Bool :=
  let bodyLen := (normalizeText page.bodyText).length
  let hasTitle := 0 < (normalizeText page.title).length
  let hasH1 := 0 < page.h1.length
  let hasH2 := 0 < page.h2.length
  if 300 ≤ bodyLen then true
  else if hasTitle && (hasH1 || hasH2) then true
  else if hasH1 then true
  else false

/-- The classifier's valid pages. -/
def classifyValidPages (pages : List PageData) : List PageData :=
  pages.filter isValidPageForClassification

/-- `medicalKeywords` from the source. -/
def medicalKeywords : Locale → List String
  | .ko => ["병원", "의원", "클리닉", "진료", "시술", "치료", "의료진", "의사", "전문의", "예약",
            "상담", "내원", "부작용", "회복", "비용", "가격"]
  | .ja => ["病院", "クリニック", "診療", "施術", "治療", "医師", "専門医", "予約", "相談", "来院",
            "副作用", "回復", "費用", "料金"]

/-- `structureKeywords` from the source. -/
def structureKeywords : Locale → List String
  | .ko => ["진료시간", "오시는길", "FAQ", "문의", "전화"]
  | .ja => ["診療時間", "アクセス", "FAQ", "よくある質問", "お問い合わせ", "電話"]

/-- `nonHospitalCore` from the source. -/
def nonHospitalCore : Locale → List String
  | .ko => ["채용", "인재", "IR", "회사소개", "기업", "쇼핑", "구매", "장바구니", "카트", "결제", "제품"]
  | .ja => ["採用", "求人", "IR", "会社概要", "企業", "購入", "カート", "決済", "製品"]

/-- `combinedText` from the source: title, H1s, H2s and normalized body,
newline-separated, trimmed. -/
def combinedText (p : PageData) : String :=
  trimStr (p.title ++ "\n" ++ joinSp p.h1 ++ "\n" ++ joinSp p.h2 ++ "\n" ++ normalizeText p.bodyText)

/-- Number of valid pages whose combined text contains one of the needles. -/
def keywordCoverage (pages : List PageData) (needles : List String) : Nat :=
  ((classifyValidPages pages).filter fun p => containsAny (combinedText p) needles).length

/-- The medical-schema type whitelist of the classifier (case-sensitive
`String.prototype.includes` in the source). -/
def classifierSchemaHit (pages : List PageData) : Bool :=
  (classifyValidPages pages).any fun p =>
    p.schemaTypes.any fun t =>
      ["MedicalClinic", "Physician", "Dentist", "Hospital", "MedicalBusiness"].any fun mt =>
        jsIncludes t.data mt.data

/-- `orgOrLocalWithMedical` from the source: a generic
`LocalBusiness|Organization` schema type (case-insensitive) together with a
medical keyword on the same page. -/
def orgOrLocalWithMedical (pages : List PageData) (locale : Locale) : Bool :=
  (classifyValidPages pages).any fun p =>
    (p.schemaTypes.any fun t => testCI "LocalBusiness" t || testCI "Organization" t) &&
    containsAny (combinedText p) (medicalKeywords locale)

/-- The classifier's non-hospital penalty (0 or −2). -/
def classifyPenalty (pages : List PageData) (locale : Locale) : ℤ :=
  if 2 ≤ keywordCoverage pages (nonHospitalCore locale) then -2 else 0

/-- The classifier's evidence score before clamping. -/
def classifyRawScore (pages : List PageData) (locale : Locale) : ℤ :=
  let medicalCoverage := keywordCoverage pages (medicalKeywords locale)
  let structureCoverage := keywordCoverage pages (structureKeywords locale)
  let a : ℤ :=
    if 5 ≤ medicalCoverage then 6 else if 3 ≤ medicalCoverage then 4
    else if 1 ≤ medicalCoverage then 2 else 0
  let b : ℤ := if 3 ≤ structureCoverage then 2 else if 1 ≤ structureCoverage then 1 else 0
  let c : ℤ := if classifierSchemaHit pages || orgOrLocalWithMedical pages locale then 3 else 0
  let d : ℤ := if 3 ≤ medicalCoverage then 1 else 0
  a + b + c + d + classifyPenalty pages locale

/-- The classifier's clamped evidence score. -/
def classifyScore (pages : List PageData) (locale : Locale) : ℤ :=
  clampZ (classifyRawScore pages locale) 0 10

/-- The three classification levels. -/
inductive Level where
  | yes
  | uncertain
  | no
deriving DecidableEq

/-- `SiteClassification` from `types.ts`. -/
structure SiteClassification where
  isHospital : Bool
  level : Level
  evidenceScore : ℤ
  evidence : List String
  validPages : Nat
deriving DecidableEq

/-- `classifySite` from the source. -/
def classifySite (pages : List PageData) (locale : Locale) : SiteClassification :=
  let validPagesCount := (classifyValidPages pages).length
  let medicalCoverage := keywordCoverage pages (medicalKeywords locale)
  let structureCoverage := keywordCoverage pages (structureKeywords locale)
  let schemaMedical := classifierSchemaHit pages || orgOrLocalWithMedical pages locale
  let score := classifyScore pages locale
  let level0 : Level := if 6 ≤ score then .yes else if 4 ≤ score then .uncertain else .no
  let level : Level := if validPagesCount < 3 ∧ level0 = .no then .uncertain else level0
  { isHospital := level = Level.yes
    level := level
    evidenceScore := score
    evidence :=
      ["medical_keyword_coverage=" ++ toString medicalCoverage,
       "structure_keyword_coverage=" ++ toString structureCoverage,
       "schema_medical=" ++ toString schemaMedical,
       "non_hospital_penalty=" ++ toString (classifyPenalty pages locale),
       "validPages=" ++ toString validPagesCount]
    validPages := validPagesCount }

/-! ## Concrete test inputs -/

/-- Scoring input used by the concrete evaluations. -/
def inpK : ScoreInput := { hospitalName := "abc", keywords := ["kw"], locale := .ko }

/-- Scoring input with an empty hospital name. -/
def inpEmptyName : ScoreInput := { hospitalName := "", keywords := ["kw"], locale := .ko }

/-- A page exhibiting every scored signal except FAQ content and FAQ schema:
valid, strong, keyword in title/H1/body-top, hospital name in title, contact,
doctor, risk and flow vocabulary, 900+ char body, meta description, canonical,
OG, viewport, six internal links including a sitemap link, an `Organization`
schema type, and zero FAQ items. -/
def pgFull : PageData :=
  { url := "https://x.com/p"
    title := "abc kw"
    description := String.mk (List.replicate 30 'd')
    h1 := ["kw"]
    h2 := ["h2a", "h2b", "h2c"]
    bodyText := String.mk (("kw 의사 주소 부작용 원인 증상 치료 ").data ++ List.replicate 900 'x')
    hasCanonical := true
    hasViewport := true
    hasOgTags := true
    hasSchema := true
    schemaTypes := ["Organization"]
    internalLinks := ["/a", "/b", "/c", "/d", "/e", "/sitemap.xml"]
    faqCount := 0 }

/-- A minimal valid page: 400-character body, hospital name in the title,
no other signals, no canonical, no sitemap, no risk vocabulary. -/
def pgSmall : PageData :=
  { url := "https://a.com/x"
    title := "abc"
    description := ""
    h1 := []
    h2 := []
    bodyText := String.mk (List.replicate 400 'x')
    hasCanonical := false
    hasViewport := false
    hasOgTags := false
    hasSchema := false
    schemaTypes := []
    internalLinks := []
    faqCount := 0 }

/-- An invalid (thin) page: one-character body, no signals at all. -/
def pgThin : PageData :=
  { url := "https://a.com/y"
    title := ""
    description := ""
    h1 := []
    h2 := []
    bodyText := "y"
    hasCanonical := false
    hasViewport := false
    hasOgTags := false
    hasSchema := false
    schemaTypes := []
    internalLinks := []
    faqCount := 0 }

/-- An invalid page whose body nevertheless contains the Korean risk term
`부작용` (side effect): it is shorter than 400 characters, so it is excluded
from the valid pages. -/
def pgRisk : PageData :=
  { url := "https://a.com/r"
    title := ""
    description := ""
    h1 := []
    h2 := []
    bodyText := "부작용"
    hasCanonical := false
    hasViewport := false
    hasOgTags := false
    hasSchema := false
    schemaTypes := []
    internalLinks := []
    faqCount := 0 }

/-- A six-element candidate list (3 failing, 3 passing, distinct keys, with
weight ties among the passing candidates). -/
def candSix : List CheckCandidate :=
  [⟨"f1", false, "", 5, 1/5⟩, ⟨"p1", true, "", 4, 9/10⟩, ⟨"f2", false, "", 3, 1/10⟩,
   ⟨"p2", true, "", 4, 1/2⟩, ⟨"f3", false, "", 1, 0⟩, ⟨"p3", true, "", 2, 1⟩]

/-- A three-element candidate list with distinct keys. -/
def candThree : List CheckCandidate :=
  [⟨"a", false, "", 2, 0⟩, ⟨"b", true, "", 1, 1⟩, ⟨"c", false, "", 3, 1/2⟩]

/-- All five categories lie in `[0, 20]`. -/
def catsInRange (s : ScoreCategory) : Prop :=
  0 ≤ s.relevance ∧ s.relevance ≤ 20 ∧ 0 ≤ s.structure_ ∧ s.structure_ ≤ 20 ∧
  0 ≤ s.indexing ∧ s.indexing ≤ 20 ∧ 0 ≤ s.trust ∧ s.trust ≤ 20 ∧
  0 ≤ s.faq_schema ∧ s.faq_schema ≤ 20

/-! ## Arithmetic lemmas -/

theorem jsRound_def (q : ℚ) : jsRound q = ⌊q + 1/2⌋ := by
  unfold jsRound
  rw [Rat.floor_def', ← Rat.floor_def]

theorem jsRound_mono {p q : ℚ} (h : p ≤ q) : jsRound p ≤ jsRound q := by
  rw [jsRound_def, jsRound_def]
  exact Int.floor_le_floor (by linarith)

theorem jsRound_le_of_le {q : ℚ} {n : ℤ} (h : q ≤ (n : ℚ)) : jsRound q ≤ n := by
  rw [jsRound_def]
  have : ⌊q + 1/2⌋ < n + 1 := by
    rw [Int.floor_lt]
    push_cast
    linarith
  omega

theorem jsRound_nonneg {q : ℚ} (h : 0 ≤ q) : 0 ≤ jsRound q := by
  rw [jsRound_def, Int.le_floor]
  push_cast
  linarith

theorem jsRound_cast_le (q : ℚ) : ((jsRound q : ℤ) : ℚ) ≤ q + 1/2 := by
  rw [jsRound_def]
  exact Int.floor_le _

theorem jsRound_intCast (n : ℤ) : jsRound ((n : ℤ) : ℚ) = n := by
  rw [jsRound_def]
  rw [Int.floor_eq_iff]
  constructor
  · linarith
  · linarith

theorem clampZ_nonneg (n hi : ℤ) : 0 ≤ clampZ n 0 hi := le_max_left 0 _

theorem clampZ_le_hi {n hi : ℤ} (h : 0 ≤ hi) : clampZ n 0 hi ≤ hi :=
  max_le h (min_le_left hi n)

theorem clampZ_le_max (n hi : ℤ) : clampZ n 0 hi ≤ max 0 n :=
  max_le (le_max_left 0 n) (le_trans (min_le_right hi n) (le_max_right 0 n))

theorem clampZ_le_of_le {n hi c : ℤ} (h0 : 0 ≤ c) (h : n ≤ c) : clampZ n 0 hi ≤ c :=
  le_trans (clampZ_le_max n hi) (max_le h0 h)

theorem scaleCat_nonneg (raw cf : ℚ) : 0 ≤ scaleCat raw cf := clampZ_nonneg _ _

theorem scaleCat_le_20 (raw cf : ℚ) : scaleCat raw cf ≤ 20 := clampZ_le_hi (by norm_num)

theorem rescaleCat_nonneg (s : ℤ) (f : ℚ) : 0 ≤ rescaleCat s f := clampZ_nonneg _ _

theorem rescaleCat_le_20 (s : ℤ) (f : ℚ) : rescaleCat s f ≤ 20 := clampZ_le_hi (by norm_num)

theorem rescaleCat_le_self {s : ℤ} {f : ℚ} (hs : 0 ≤ s) (hf1 : f ≤ 1) :
    rescaleCat s f ≤ s := by
  unfold rescaleCat
  apply clampZ_le_of_le hs
  have h1 : (s : ℚ) * f ≤ (s : ℚ) := by
    have : (0 : ℚ) ≤ (s : ℚ) := by exact_mod_cast hs
    nlinarith
  calc jsRound ((s : ℚ) * f) ≤ jsRound ((s : ℚ)) := jsRound_mono h1
    _ = s := jsRound_intCast s

theorem rescaleCat_cast_le {s : ℤ} {f : ℚ} (h : 0 ≤ (s : ℚ) * f) :
    ((rescaleCat s f : ℤ) : ℚ) ≤ (s : ℚ) * f + 1/2 := by
  unfold rescaleCat
  have h1 : clampZ (jsRound ((s : ℚ) * f)) 0 20 ≤ jsRound ((s : ℚ) * f) :=
    le_trans (clampZ_le_max _ _) (max_le (jsRound_nonneg h) le_rfl)
  calc ((clampZ (jsRound ((s : ℚ) * f)) 0 20 : ℤ) : ℚ) ≤ ((jsRound ((s : ℚ) * f) : ℤ) : ℚ) := by
        exact_mod_cast h1
    _ ≤ (s : ℚ) * f + 1/2 := jsRound_cast_le _

/-- Rescaling five non-negative categories by `cap / total` can overshoot the
cap by at most `5 × 1/2`, hence by at most 2 in integers. -/
theorem rescale_sum_le (a b c d e t : ℤ) (ha : 0 ≤ a) (hb : 0 ≤ b) (hc : 0 ≤ c) (hd : 0 ≤ d)
    (he : 0 ≤ e) (hsum : a + b + c + d + e = t) (ht : 80 < t) :
    rescaleCat a ((80 : ℚ) / (t : ℚ)) + rescaleCat b ((80 : ℚ) / (t : ℚ)) +
      rescaleCat c ((80 : ℚ) / (t : ℚ)) + rescaleCat d ((80 : ℚ) / (t : ℚ)) +
      rescaleCat e ((80 : ℚ) / (t : ℚ)) ≤ 82 := by
  set f : ℚ := (80 : ℚ) / (t : ℚ) with hf
  have htq : (0 : ℚ) < (t : ℚ) := by exact_mod_cast lt_trans (by norm_num) ht
  have nn : ∀ x : ℤ, 0 ≤ x → 0 ≤ (x : ℚ) * f := fun x hx => by
    have : (0 : ℚ) ≤ (x : ℚ) := by exact_mod_cast hx
    positivity
  have key : ((rescaleCat a f + rescaleCat b f + rescaleCat c f + rescaleCat d f +
      rescaleCat e f : ℤ) : ℚ) ≤ 165/2 := by
    push_cast
    have la := rescaleCat_cast_le (nn a ha)
    have lb := rescaleCat_cast_le (nn b hb)
    have lc := rescaleCat_cast_le (nn c hc)
    have ld := rescaleCat_cast_le (nn d hd)
    have le' := rescaleCat_cast_le (nn e he)
    have hsq : ((a : ℚ) + b + c + d + e) = (t : ℚ) := by exact_mod_cast congrArg (Int.cast : ℤ → ℚ) hsum
    have hmul : ((a : ℚ) + b + c + d + e) * f = 80 := by
      rw [hsq, hf]
      field_simp
    nlinarith
  have : ((rescaleCat a f + rescaleCat b f + rescaleCat c f + rescaleCat d f +
      rescaleCat e f : ℤ) : ℚ) < 83 := lt_of_le_of_lt key (by norm_num)
  exact_mod_cast Int.lt_add_one_iff.mp (by exact_mod_cast this)

theorem clampZ_of_bounds {n hi : ℤ} (h0 : 0 ≤ n) (h1 : n ≤ hi) : clampZ n 0 hi = n := by
  unfold clampZ
  rw [min_eq_right h1, max_eq_right h0]

/-! ## Lemmas about `finalize` -/

theorem applyCapZ_bounds {x : ℤ} {c : Option ℤ} (hc : c = none ∨ c = some 14)
    (h0 : 0 ≤ x) (h1 : x ≤ 20) : 0 ≤ applyCapZ x c ∧ applyCapZ x c ≤ 20 := by
  rcases hc with rfl | rfl
  · exact ⟨h0, h1⟩
  · exact ⟨le_min h0 (by norm_num), le_trans (min_le_left _ _) h1⟩

theorem scaledCats_mem (rel str idx tru fq vr : ℚ) {ci ct : Option ℤ}
    (hci : ci = none ∨ ci = some 14) (hct : ct = none ∨ ct = some 14) :
    catsInRange (scaledCats rel str idx tru fq vr ci ct) := by
  unfold scaledCats catsInRange
  dsimp only
  refine ⟨scaleCat_nonneg _ _, scaleCat_le_20 _ _, scaleCat_nonneg _ _, scaleCat_le_20 _ _,
    ?_, ?_, ?_, ?_, scaleCat_nonneg _ _, scaleCat_le_20 _ _⟩
  · exact (applyCapZ_bounds hci (scaleCat_nonneg _ _) (scaleCat_le_20 _ _)).1
  · exact (applyCapZ_bounds hci (scaleCat_nonneg _ _) (scaleCat_le_20 _ _)).2
  · exact (applyCapZ_bounds hct (scaleCat_nonneg _ _) (scaleCat_le_20 _ _)).1
  · exact (applyCapZ_bounds hct (scaleCat_nonneg _ _) (scaleCat_le_20 _ _)).2

theorem rescaledCats_mem (s : ScoreCategory) (factor : ℚ) :
    catsInRange (rescaledCats s factor) := by
  unfold rescaledCats catsInRange
  dsimp only
  exact ⟨rescaleCat_nonneg _ _, rescaleCat_le_20 _ _, rescaleCat_nonneg _ _, rescaleCat_le_20 _ _,
    rescaleCat_nonneg _ _, rescaleCat_le_20 _ _, rescaleCat_nonneg _ _, rescaleCat_le_20 _ _,
    rescaleCat_nonneg _ _, rescaleCat_le_20 _ _⟩

theorem capTotal_fst_mem (s : ScoreCategory) (cT : Option ℤ) (hs : catsInRange s) :
    catsInRange (capTotal s cT).1 := by
  cases cT with
  | none => exact hs
  | some c =>
    dsimp only [capTotal]
    split_ifs with h
    · exact rescaledCats_mem _ _
    · exact hs

theorem capTotal_snd_eq (s : ScoreCategory) (cT : Option ℤ) :
    (capTotal s cT).2 = sumCats (capTotal s cT).1 := by
  cases cT with
  | none => rfl
  | some c =>
    dsimp only [capTotal]
    split_ifs with h <;> rfl

theorem sumCats_bounds {s : ScoreCategory} (hs : catsInRange s) :
    0 ≤ sumCats s ∧ sumCats s ≤ 100 := by
  obtain ⟨a, b, c, d, e, f, g, h, i, j⟩ := hs
  unfold sumCats
  omega

theorem finalize_fst_mem (rel str idx tru fq vr : ℚ) {ci ct : Option ℤ} (cT : Option ℤ)
    (hci : ci = none ∨ ci = some 14) (hct : ct = none ∨ ct = some 14) :
    catsInRange (finalize rel str idx tru fq vr ci ct cT).1 :=
  capTotal_fst_mem _ cT (scaledCats_mem rel str idx tru fq vr hci hct)

theorem finalize_snd_eq_sum (rel str idx tru fq vr : ℚ) {ci ct : Option ℤ} (cT : Option ℤ)
    (hci : ci = none ∨ ci = some 14) (hct : ct = none ∨ ct = some 14) :
    (finalize rel str idx tru fq vr ci ct cT).2 =
      sumCats (finalize rel str idx tru fq vr ci ct cT).1 := by
  have hm := capTotal_fst_mem _ cT (scaledCats_mem rel str idx tru fq vr hci hct)
  have hb := sumCats_bounds hm
  show clampZ (jsRound _) 0 100 = _
  rw [capTotal_snd_eq, jsRound_intCast]
  exact clampZ_of_bounds hb.1 hb.2

theorem capTotal_comp_le {s : ScoreCategory} {cT : Option ℤ} (hs : catsInRange s)
    (hcT : cT = none ∨ cT = some 80) :
    (capTotal s cT).1.indexing ≤ s.indexing ∧ (capTotal s cT).1.trust ≤ s.trust := by
  obtain ⟨h1, h2, h3, h4, h5, h6, h7, h8, h9, h10⟩ := hs
  rcases hcT with rfl | rfl
  · exact ⟨le_rfl, le_rfl⟩
  · dsimp only [capTotal]
    split_ifs with h
    · have ht0 : (0 : ℚ) < ((sumCats s : ℤ) : ℚ) := by
        have : (0 : ℤ) < sumCats s := by omega
        exact_mod_cast this
      have hf1 : ((80 : ℤ) : ℚ) / ((sumCats s : ℤ) : ℚ) ≤ 1 := by
        rw [div_le_one ht0]
        exact_mod_cast le_of_lt h
      exact ⟨rescaleCat_le_self h5 hf1, rescaleCat_le_self h7 hf1⟩
    · exact ⟨le_rfl, le_rfl⟩

theorem finalize_indexing_le (rel str idx tru fq vr : ℚ) {ci ct cT : Option ℤ}
    (hci : ci = some 14) (hct : ct = none ∨ ct = some 14) (hcT : cT = none ∨ cT = some 80) :
    (finalize rel str idx tru fq vr ci ct cT).1.indexing ≤ 14 := by
  subst hci
  have hm := scaledCats_mem rel str idx tru fq vr (Or.inr rfl) hct
  have hle := (capTotal_comp_le hm hcT).1
  refine le_trans hle ?_
  exact min_le_right _ _

theorem finalize_trust_le (rel str idx tru fq vr : ℚ) {ci ct cT : Option ℤ}
    (hci : ci = none ∨ ci = some 14) (hct : ct = some 14) (hcT : cT = none ∨ cT = some 80) :
    (finalize rel str idx tru fq vr ci ct cT).1.trust ≤ 14 := by
  subst hct
  have hm := scaledCats_mem rel str idx tru fq vr hci (Or.inr rfl)
  have hle := (capTotal_comp_le hm hcT).2
  refine le_trans hle ?_
  exact min_le_right _ _

theorem sumCats_rescaled_nonneg (s : ScoreCategory) (f : ℚ) :
    0 ≤ sumCats (rescaledCats s f) := by
  have e1 := rescaleCat_nonneg s.relevance f
  have e2 := rescaleCat_nonneg s.structure_ f
  have e3 := rescaleCat_nonneg s.indexing f
  have e4 := rescaleCat_nonneg s.trust f
  have e5 := rescaleCat_nonneg s.faq_schema f
  unfold sumCats rescaledCats
  dsimp only
  omega

theorem sumCats_rescaled_le_82 {s : ScoreCategory} (hs : catsInRange s)
    (h : 80 < sumCats s) :
    sumCats (rescaledCats s (((80 : ℤ) : ℚ) / ((sumCats s : ℤ) : ℚ))) ≤ 82 := by
  obtain ⟨h1, h2, h3, h4, h5, h6, h7, h8, h9, h10⟩ := hs
  have hcast : ((80 : ℤ) : ℚ) = (80 : ℚ) := by norm_num
  have key := rescale_sum_le s.relevance s.structure_ s.indexing s.trust s.faq_schema
    (sumCats s) h1 h3 h5 h7 h9 rfl h
  rw [hcast]
  unfold sumCats rescaledCats
  dsimp only
  exact key

theorem capTotal_snd_le_82 {s : ScoreCategory} (hs : catsInRange s) :
    0 ≤ (capTotal s (some 80)).2 ∧ (capTotal s (some 80)).2 ≤ 82 := by
  have hb := sumCats_bounds hs
  dsimp only [capTotal]
  split_ifs with h
  · exact ⟨sumCats_rescaled_nonneg _ _, sumCats_rescaled_le_82 hs h⟩
  · exact ⟨hb.1, by omega⟩

theorem finalize_total_le_82 (rel str idx tru fq vr : ℚ) {ci ct cT : Option ℤ}
    (hci : ci = none ∨ ci = some 14) (hct : ct = none ∨ ct = some 14) (hcT : cT = some 80) :
    (finalize rel str idx tru fq vr ci ct cT).2 ≤ 82 := by
  subst hcT
  have hm := scaledCats_mem rel str idx tru fq vr hci hct
  have hb := capTotal_snd_le_82 hm
  show clampZ (jsRound _) 0 100 ≤ 82
  rw [jsRound_intCast]
  rw [clampZ_of_bounds hb.1 (by omega)]
  exact hb.2

/-! ## Projections of `calculateScore` on non-empty input -/

theorem calculateScore_total_eq (pages : List PageData) (input : ScoreInput)
    (h : pages ≠ []) :
    (calculateScore pages input).total =
      (finalize (relevanceRaw pages input) (structureRaw pages input)
        (indexingRaw pages input) (trustRaw pages input) (faqSchemaRaw pages input)
        (((validPagesOf pages).length : ℚ) / (pages.length : ℚ))
        (capsOf pages input).indexingCap (capsOf pages input).trustCap
        (capsOf pages input).totalCap).2 := by
  unfold calculateScore
  rw [if_neg (by simpa using h)]

theorem calculateScore_categories_eq (pages : List PageData) (input : ScoreInput)
    (h : pages ≠ []) :
    (calculateScore pages input).categories =
      (finalize (relevanceRaw pages input) (structureRaw pages input)
        (indexingRaw pages input) (trustRaw pages input) (faqSchemaRaw pages input)
        (((validPagesOf pages).length : ℚ) / (pages.length : ℚ))
        (capsOf pages input).indexingCap (capsOf pages input).trustCap
        (capsOf pages input).totalCap).1 := by
  unfold calculateScore
  rw [if_neg (by simpa using h)]

theorem calculateScore_caps_eq (pages : List PageData) (input : ScoreInput)
    (h : pages ≠ []) :
    (calculateScore pages input).details.caps = capsOf pages input := by
  unfold calculateScore
  rw [if_neg (by simpa using h)]

theorem calculateScore_signals_eq (pages : List PageData) (input : ScoreInput)
    (h : pages ≠ []) :
    (calculateScore pages input).details.signals = signalsOf pages input := by
  unfold calculateScore
  rw [if_neg (by simpa using h)]

/-! ## Shapes of the caps -/

theorem capsOf_indexingCap (pages : List PageData) (input : ScoreInput) :
    (capsOf pages input).indexingCap = none ∨ (capsOf pages input).indexingCap = some 14 := by
  unfold capsOf
  dsimp only
  split_ifs <;> simp

theorem capsOf_trustCap (pages : List PageData) (input : ScoreInput) :
    (capsOf pages input).trustCap = none ∨ (capsOf pages input).trustCap = some 14 := by
  unfold capsOf
  dsimp only
  split_ifs <;> simp

theorem capsOf_totalCap (pages : List PageData) (input : ScoreInput) :
    (capsOf pages input).totalCap = none ∨ (capsOf pages input).totalCap = some 80 := by
  unfold capsOf
  dsimp only
  split_ifs <;> simp

/-! ## Claim theorems -/

/-- C2: for every input (including the empty page list), the `ScoreResult`
returned by `calculateScore` satisfies: each of the five category values is an
integer in `[0, 20]` (they are `ℤ`-valued in this embedding), the total is in
`[0, 100]`, and the total equals the sum of the five category values as
returned. -/
theorem calculateScore_bounds (pages : List PageData) (input : ScoreInput) :
    catsInRange (calculateScore pages input).categories ∧
    0 ≤ (calculateScore pages input).total ∧ (calculateScore pages input).total ≤ 100 ∧
    (calculateScore pages input).total = sumCats (calculateScore pages input).categories := by
  by_cases h : pages = []
  · subst h
    refine ⟨⟨?_, ?_, ?_, ?_, ?_, ?_, ?_, ?_, ?_, ?_⟩, ?_, ?_, ?_⟩ <;> norm_num [calculateScore, sumCats, catsInRange]
  · rw [calculateScore_total_eq pages input h, calculateScore_categories_eq pages input h]
    have hm := finalize_fst_mem (relevanceRaw pages input) (structureRaw pages input)
      (indexingRaw pages input) (trustRaw pages input) (faqSchemaRaw pages input)
      (((validPagesOf pages).length : ℚ) / (pages.length : ℚ)) (capsOf pages input).totalCap
      (capsOf_indexingCap pages input) (capsOf_trustCap pages input)
    have hsum := finalize_snd_eq_sum (relevanceRaw pages input) (structureRaw pages input)
      (indexingRaw pages input) (trustRaw pages input) (faqSchemaRaw pages input)
      (((validPagesOf pages).length : ℚ) / (pages.length : ℚ)) (capsOf pages input).totalCap
      (capsOf_indexingCap pages input) (capsOf_trustCap pages input)
    have hb := sumCats_bounds hm
    exact ⟨hm, by omega, by omega, hsum⟩

/-- C5: for the empty page list and any input parameters, `calculateScore`
never fails and returns exactly total 0, all five categories 0, the single
signal `"No pages analyzed"`, and all-zero metrics. -/
theorem calculateScore_empty (input : ScoreInput) :
    (calculateScore [] input).total = 0 ∧
    (calculateScore [] input).categories = ⟨0, 0, 0, 0, 0⟩ ∧
    (calculateScore [] input).details.signals = ["No pages analyzed"] ∧
    (calculateScore [] input).details.metrics =
      { pagesAnalyzed := 0, validPages := 0, validRatio := 0, strongPages := 0 } :=
  ⟨rfl, rfl, rfl, rfl⟩

/-- C1 (counterexample): a single rich page with `totalFaq = 0` and no
FAQ-schema type sets `caps.totalCap = 80`, yet the returned total is 82: the
proportional rescale rounds four categories from 18.6 up to 19 and one from
5.58 up to 6, so the recomputed sum exceeds the cap.  This refutes the claim
that the returned total is at most 80. -/
theorem totalCap_exceeded_counterexample :
    (calculateScore [pgFull] inpK).details.caps.totalCap = some 80 ∧
    totalFaqOf [pgFull] < 3 ∧ hasFaqSchemaAnyOf [pgFull] = false ∧
    80 < (calculateScore [pgFull] inpK).total ∧
    (calculateScore [pgFull] inpK).total = 82 := by
  decide

/-- C1 (amended): for every non-empty page list where the total FAQ item count
across valid pages is less than 3 and no valid page has an FAQ-schema type,
`calculateScore` sets `caps.totalCap = 80`, applies the cap by proportionally
rescaling all five categories (rounding and reclamping each) and recomputing
the total as their sum — hence the returned total still equals the sum of the
categories and is at most 82 (each of the five roundings can add at most 1/2,
so the recomputed sum can exceed the 80 cap by up to 2). -/
theorem calculateScore_totalCap (pages : List PageData) (input : ScoreInput)
    (hne : pages ≠ []) (hfaq : totalFaqOf pages < 3)
    (hschema : hasFaqSchemaAnyOf pages = false) :
    (calculateScore pages input).details.caps.totalCap = some 80 ∧
    (calculateScore pages input).total ≤ 82 ∧
    (calculateScore pages input).total = sumCats (calculateScore pages input).categories := by
  have hcap : (capsOf pages input).totalCap = some 80 := by
    unfold capsOf
    dsimp only
    rw [if_pos ⟨hfaq, by simp [hschema]⟩]
  refine ⟨?_, ?_, ?_⟩
  · rw [calculateScore_caps_eq pages input hne]
    exact hcap
  · rw [calculateScore_total_eq pages input hne]
    exact finalize_total_le_82 _ _ _ _ _ _ (capsOf_indexingCap pages input)
      (capsOf_trustCap pages input) hcap
  · rw [calculateScore_total_eq pages input hne, calculateScore_categories_eq pages input hne]
    exact finalize_snd_eq_sum _ _ _ _ _ _ _ (capsOf_indexingCap pages input)
      (capsOf_trustCap pages input)

/-- C1 (witness): the amended claim instantiated at a concrete one-page list
with no FAQ items and no FAQ schema. -/
theorem calculateScore_totalCap_witness :
    (calculateScore [pgSmall] inpK).details.caps.totalCap = some 80 ∧
    (calculateScore [pgSmall] inpK).total ≤ 82 ∧
    (calculateScore [pgSmall] inpK).total = sumCats (calculateScore [pgSmall] inpK).categories :=
  calculateScore_totalCap [pgSmall] inpK (by decide) (by decide) (by decide)

/-- C3: for every non-empty page list in which no page has a canonical tag and
no page URL or internal link matches `/sitemap/i`, `calculateScore` sets
`caps.indexingCap = 14` and the indexing category of the returned result is at
most 14 (the cap is re-applied after confidence scaling, and the total-cap
rescale can only lower it further, so rounding never lets it exceed the cap). -/
theorem calculateScore_indexingCap (pages : List PageData) (input : ScoreInput)
    (hne : pages ≠ [])
    (hcanon : ∀ p ∈ pages, p.hasCanonical = false)
    (hsite : ∀ p ∈ pages, testCI "sitemap" p.url = false ∧
      ∀ l ∈ p.internalLinks, testCI "sitemap" l = false) :
    (calculateScore pages input).details.caps.indexingCap = some 14 ∧
    (calculateScore pages input).categories.indexing ≤ 14 := by
  have hsm : hasSitemapProxyOf pages = false := by
    unfold hasSitemapProxyOf
    rw [Bool.or_eq_false_iff]
    constructor
    · rw [List.any_eq_false]
      intro p hp
      simp [(hsite p hp).1]
    · rw [List.any_eq_false]
      intro p hp
      simp only [Bool.not_eq_true, List.any_eq_false]
      intro l hl
      simp [(hsite p hp).2 l hl]
  have hca : hasCanonicalAnyOf pages = false := by
    unfold hasCanonicalAnyOf validPagesOf
    rw [List.any_eq_false]
    intro p hp
    simp [hcanon p (List.mem_of_mem_filter hp)]
  have hcap : (capsOf pages input).indexingCap = some 14 := by
    unfold capsOf
    dsimp only
    rw [if_pos ⟨by simp [hsm], by simp [hca]⟩]
  refine ⟨?_, ?_⟩
  · rw [calculateScore_caps_eq pages input hne]
    exact hcap
  · rw [calculateScore_categories_eq pages input hne]
    exact finalize_indexing_le _ _ _ _ _ _ hcap (capsOf_trustCap pages input)
      (capsOf_totalCap pages input)

/-- C3 (witness): the cap theorem instantiated at a concrete one-page list
with no canonical tag and no sitemap-matching URL or link. -/
theorem calculateScore_indexingCap_witness :
    (calculateScore [pgSmall] inpK).details.caps.indexingCap = some 14 ∧
    (calculateScore [pgSmall] inpK).categories.indexing ≤ 14 :=
  calculateScore_indexingCap [pgSmall] inpK (by decide) (by decide) (by decide)

/-- C4 (counterexample): the trust cap is keyed on *valid* pages only.  Here a
page whose body is the Korean risk term `부작용` (3 characters, hence invalid)
exhibits the risk vocabulary, yet `calculateScore` still applies
`caps.trustCap = 14`.  This refutes the claim that the cap is applied exactly
when zero pages (of the whole input) exhibit risk vocabulary. -/
theorem trustCap_counterexample :
    pgRisk ∈ [pgRisk] ∧ pageHasRiskInfo Locale.ko pgRisk = true ∧
    inpK.locale = Locale.ko ∧
    (calculateScore [pgRisk] inpK).details.caps.trustCap = some 14 := by
  decide

/-- C4 (amended): for every non-empty page list, `calculateScore` sets
`caps.trustCap = 14` exactly when zero *valid* pages exhibit the locale's
risk/side-effect vocabulary; in particular, if some valid page exhibits risk
vocabulary, no trust cap is applied, and whenever the cap is applied the
returned trust category is at most 14. -/
theorem calculateScore_trustCap (pages : List PageData) (input : ScoreInput)
    (hne : pages ≠ []) :
    ((calculateScore pages input).details.caps.trustCap = some 14 ↔
      ∀ p ∈ validPagesOf pages, pageHasRiskInfo input.locale p = false) ∧
    ((∃ p ∈ validPagesOf pages, pageHasRiskInfo input.locale p = true) →
      (calculateScore pages input).details.caps.trustCap = none) ∧
    ((calculateScore pages input).details.caps.trustCap = some 14 →
      (calculateScore pages input).categories.trust ≤ 14) := by
  rw [calculateScore_caps_eq pages input hne, calculateScore_categories_eq pages input hne]
  have hobs : riskObservedOf pages input.locale = 0 ↔
      ∀ p ∈ validPagesOf pages, pageHasRiskInfo input.locale p = false := by
    unfold riskObservedOf
    rw [List.length_eq_zero, List.filter_eq_nil_iff]
    constructor
    · intro h p hp
      have := h p hp
      simpa using this
    · intro h p hp
      simp [h p hp]
  have hiff : (capsOf pages input).trustCap = some 14 ↔
      ∀ p ∈ validPagesOf pages, pageHasRiskInfo input.locale p = false := by
    unfold capsOf
    dsimp only
    split_ifs with h
    · simpa using hobs.mp h
    · constructor
      · intro habs
        exact absurd habs (by simp)
      · intro hall
        exact absurd (hobs.mpr hall) h
  refine ⟨hiff, ?_, ?_⟩
  · intro ⟨p, hp, hrisk⟩
    unfold capsOf
    dsimp only
    rw [if_neg]
    intro h0
    have := hobs.mp h0 p hp
    rw [this] at hrisk
    exact Bool.false_ne_true hrisk
  · intro hcap
    exact finalize_trust_le _ _ _ _ _ _ (capsOf_indexingCap pages input) hcap
      (capsOf_totalCap pages input)

/-- C4 (witness): the amended claim instantiated at a concrete one-page list
whose single valid page has no risk vocabulary (the cap is applied). -/
theorem calculateScore_trustCap_witness :
    ((calculateScore [pgSmall] inpK).details.caps.trustCap = some 14 ↔
      ∀ p ∈ validPagesOf [pgSmall], pageHasRiskInfo inpK.locale p = false) ∧
    ((∃ p ∈ validPagesOf [pgSmall], pageHasRiskInfo inpK.locale p = true) →
      (calculateScore [pgSmall] inpK).details.caps.trustCap = none) ∧
    ((calculateScore [pgSmall] inpK).details.caps.trustCap = some 14 →
      (calculateScore [pgSmall] inpK).categories.trust ≤ 14) :=
  calculateScore_trustCap [pgSmall] inpK (by decide)

/-- C6: for every page list with fewer than 3 valid pages (by the classifier's
validity rule) whose clamped evidence score is below 4, `classifySite` returns
level `uncertain` rather than `no`; in particular the empty page list yields
evidence score 0, level `uncertain`, and `isHospital = false`. -/
theorem classifySite_promotion (pages : List PageData) (locale : Locale) :
    (((classifyValidPages pages).length < 3 ∧ (classifySite pages locale).evidenceScore < 4) →
      (classifySite pages locale).level = Level.uncertain) ∧
    (pages = [] →
      (classifySite pages locale).evidenceScore = 0 ∧
      (classifySite pages locale).level = Level.uncertain ∧
      (classifySite pages locale).isHospital = false) := by
  constructor
  · intro ⟨hv, hs⟩
    have hs4 : classifyScore pages locale < 4 := hs
    have hl0 : (if 6 ≤ classifyScore pages locale then Level.yes
        else if 4 ≤ classifyScore pages locale then Level.uncertain else Level.no) =
        Level.no := by
      rw [if_neg (by omega), if_neg (by omega)]
    show (if (classifyValidPages pages).length < 3 ∧
        (if 6 ≤ classifyScore pages locale then Level.yes
          else if 4 ≤ classifyScore pages locale then Level.uncertain else Level.no) =
            Level.no then Level.uncertain
      else if 6 ≤ classifyScore pages locale then Level.yes
        else if 4 ≤ classifyScore pages locale then Level.uncertain else Level.no) =
      Level.uncertain
    rw [hl0]
    rw [if_pos ⟨hv, rfl⟩]
  · intro h
    subst h
    cases locale <;> exact ⟨by decide, by decide, by decide⟩

/-- C6 (witness): the promotion rule and the empty-input behaviour
instantiated at the empty page list. -/
theorem classifySite_promotion_witness :
    (classifySite [] Locale.ko).level = Level.uncertain ∧
    (classifySite [] Locale.ko).evidenceScore = 0 ∧
    (classifySite [] Locale.ko).isHospital = false :=
  ⟨(classifySite_promotion [] Locale.ko).1 ⟨by decide, by decide⟩,
   ((classifySite_promotion [] Locale.ko).2 rfl).1,
   ((classifySite_promotion [] Locale.ko).2 rfl).2.2⟩

/-- C7: the confidence factor `0.65 + 0.35 × validRatio` lies in `[0.65, 1]`
for every ratio in `[0, 1]`, and for a fixed raw category value in `[0, 20]`
the scaled category value (round, then clamp to `[0, 20]`) is monotone
non-decreasing in the ratio. -/
theorem confidenceFactor_bounds_and_monotone (r r1 r2 raw : ℚ)
    (hr0 : 0 ≤ r) (hr1 : r ≤ 1) (hraw0 : 0 ≤ raw) (_hraw20 : raw ≤ 20) (h12 : r1 ≤ r2) :
    (13/20 ≤ confidenceFactor r ∧ confidenceFactor r ≤ 1) ∧
    scaleCat raw (confidenceFactor r1) ≤ scaleCat raw (confidenceFactor r2) := by
  constructor
  · unfold confidenceFactor
    constructor <;> nlinarith
  · have hcf : confidenceFactor r1 ≤ confidenceFactor r2 := by
      unfold confidenceFactor
      linarith
    have hmul : raw * confidenceFactor r1 ≤ raw * confidenceFactor r2 :=
      mul_le_mul_of_nonneg_left hcf hraw0
    have hj := jsRound_mono hmul
    unfold scaleCat clampZ
    exact max_le_max le_rfl (min_le_min le_rfl hj)

/-- C7 (witness): the bounds and the monotonicity instantiated at ratio 1/2 and
at ratios 0 ≤ 1 with raw score 10. -/
theorem confidenceFactor_witness :
    (13/20 ≤ confidenceFactor (1/2) ∧ confidenceFactor (1/2) ≤ 1) ∧
    scaleCat 10 (confidenceFactor 0) ≤ scaleCat 10 (confidenceFactor 1) :=
  confidenceFactor_bounds_and_monotone (1/2) 0 1 10 (by norm_num) (by norm_num) (by norm_num)
    (by norm_num) (by norm_num)

theorem jsIncludes_nil (hay : List Char) : jsIncludes hay [] = true := by
  cases hay <;> rfl

/-- C9: with an empty hospital name and at least one valid page, the
title-contains-hospital-name predicate holds on every valid page (every string
includes the empty string), so the `"title_has_hospital"` signal is emitted
and the 6-point relevance check is scored at the full coverage of the valid
pages (its observed and strong-observed counts are the full valid and strong
page counts). -/
theorem emptyHospitalName_full_coverage (pages : List PageData) (input : ScoreInput)
    (hname : input.hospitalName = "") (hv : validPagesOf pages ≠ []) :
    (∀ p ∈ validPagesOf pages, titleIncludesHospital input.hospitalName p = true) ∧
    (validPagesOf pages).filter (titleIncludesHospital input.hospitalName) =
      validPagesOf pages ∧
    (strongPagesOf pages input.locale).filter (titleIncludesHospital input.hospitalName) =
      strongPagesOf pages input.locale ∧
    scoreByCoverage pages.length
      (observedCounts (validPagesOf pages) (strongPagesOf pages input.locale)
        (titleIncludesHospital input.hospitalName)).1
      (observedCounts (validPagesOf pages) (strongPagesOf pages input.locale)
        (titleIncludesHospital input.hospitalName)).2 6 none =
      scoreByCoverage pages.length (validPagesOf pages).length
        (strongPagesOf pages input.locale).length 6 none ∧
    "title_has_hospital" ∈ (calculateScore pages input).details.signals := by
  have hall : ∀ p : PageData, titleIncludesHospital input.hospitalName p = true := by
    intro p
    unfold titleIncludesHospital
    rw [hname]
    rw [show ("" : String).data = [] from rfl]
    exact jsIncludes_nil _
  have hfv : (validPagesOf pages).filter (titleIncludesHospital input.hospitalName) =
      validPagesOf pages :=
    List.filter_eq_self.mpr fun p _ => hall p
  have hfs : (strongPagesOf pages input.locale).filter (titleIncludesHospital input.hospitalName) =
      strongPagesOf pages input.locale :=
    List.filter_eq_self.mpr fun p _ => hall p
  have hcounts : (observedCounts (validPagesOf pages) (strongPagesOf pages input.locale)
      (titleIncludesHospital input.hospitalName)) =
      ((validPagesOf pages).length, (strongPagesOf pages input.locale).length) := by
    unfold observedCounts
    rw [hfv, hfs]
  have hne : pages ≠ [] := by
    intro h
    apply hv
    rw [h]
    rfl
  refine ⟨fun p _ => hall p, hfv, hfs, by rw [hcounts], ?_⟩
  rw [calculateScore_signals_eq pages input hne]
  unfold signalsOf
  dsimp only
  have hcond : 0 < (observedCounts (validPagesOf pages) (strongPagesOf pages input.locale)
      (titleIncludesHospital input.hospitalName)).1 := by
    rw [hcounts]
    exact List.length_pos.mpr hv
  rw [show sigIf (decide (0 < (observedCounts (validPagesOf pages)
      (strongPagesOf pages input.locale) (titleIncludesHospital input.hospitalName)).1))
      "title_has_hospital" = ["title_has_hospital"] from by
    unfold sigIf
    rw [if_pos (by simpa using hcond)]]
  simp

/-- C9 (witness): the full-coverage behaviour instantiated at a one-page list
with an empty hospital name. -/
theorem emptyHospitalName_witness :
    (∀ p ∈ validPagesOf [pgSmall], titleIncludesHospital inpEmptyName.hospitalName p = true) ∧
    (validPagesOf [pgSmall]).filter (titleIncludesHospital inpEmptyName.hospitalName) =
      validPagesOf [pgSmall] ∧
    (strongPagesOf [pgSmall] inpEmptyName.locale).filter
      (titleIncludesHospital inpEmptyName.hospitalName) =
      strongPagesOf [pgSmall] inpEmptyName.locale ∧
    scoreByCoverage [pgSmall].length
      (observedCounts (validPagesOf [pgSmall]) (strongPagesOf [pgSmall] inpEmptyName.locale)
        (titleIncludesHospital inpEmptyName.hospitalName)).1
      (observedCounts (validPagesOf [pgSmall]) (strongPagesOf [pgSmall] inpEmptyName.locale)
        (titleIncludesHospital inpEmptyName.hospitalName)).2 6 none =
      scoreByCoverage [pgSmall].length (validPagesOf [pgSmall]).length
        (strongPagesOf [pgSmall] inpEmptyName.locale).length 6 none ∧
    "title_has_hospital" ∈ (calculateScore [pgSmall] inpEmptyName).details.signals :=
  emptyHospitalName_full_coverage [pgSmall] inpEmptyName rfl (by decide)

/-- C10: the total score is not monotone in the page list: appending a page
whose normalized body is shorter than 400 characters (an invalid page) can
strictly decrease the total, because it enlarges `pagesAnalyzed` and lowers
`validRatio` without adding any observed signal. -/
theorem total_not_monotone :
    ∃ (P : List PageData) (q : PageData) (input : ScoreInput),
      (normalizeText q.bodyText).length < 400 ∧
      (calculateScore (P ++ [q]) input).total < (calculateScore P input).total :=
  ⟨[pgSmall], pgThin, inpK, by decide, by decide⟩

/-! ## Lemmas about `pickFourChecks` (C8) -/

theorem fails_passes_perm (l : List CheckCandidate) :
    ((l.filter fun c => !c.ok) ++ (l.filter fun c => c.ok)).Perm l :=
  List.perm_append_comm.trans (List.filter_append_perm (fun c => c.ok) l)

theorem sorted_parts_perm (l : List CheckCandidate) :
    ((List.insertionSort failOrder (l.filter fun c => !c.ok)) ++
      (List.insertionSort passOrder (l.filter fun c => c.ok))).Perm l :=
  ((List.perm_insertionSort failOrder _).append (List.perm_insertionSort passOrder _)).trans
    (fails_passes_perm l)

theorem take_drop_shuffle_perm (a b : List CheckCandidate) :
    ((a.take 2 ++ b.take 2) ++ (a.drop 2 ++ b.drop 2)).Perm (a ++ b) := by
  have h1 : (b.take 2 ++ (a.drop 2 ++ b.drop 2)).Perm (a.drop 2 ++ (b.take 2 ++ b.drop 2)) := by
    rw [← List.append_assoc, ← List.append_assoc]
    exact List.Perm.append_right _ List.perm_append_comm
  rw [List.append_assoc]
  refine (List.Perm.append_left _ h1).trans ?_
  rw [← List.append_assoc, List.take_append_drop, List.take_append_drop]

theorem backfillChecks_eq_append :
    ∀ (rem chosen : List CheckCandidate),
      chosen.length + rem.length < 4 →
      ((chosen ++ rem).map CheckCandidate.key).Nodup →
      backfillChecks chosen rem = chosen ++ rem := by
  intro rem
  induction rem with
  | nil =>
    intro chosen _ _
    simp [backfillChecks]
  | cons c rest ih =>
    intro chosen hlen hnd
    have hdup : (chosen.any fun x => x.key == c.key) = false := by
      rw [List.any_eq_false]
      intro x hx
      simp only [beq_iff_eq, Bool.not_eq_true]
      intro hkey
      have hnd2 : (chosen.map CheckCandidate.key ++
          (c :: rest).map CheckCandidate.key).Nodup := by
        rw [← List.map_append]
        exact hnd
      have hdisj := List.disjoint_of_nodup_append hnd2
      exact hdisj (List.mem_map_of_mem _ hx)
        (by rw [hkey]; exact List.mem_map_of_mem _ (List.mem_cons_self c rest))
    simp only [backfillChecks]
    rw [if_neg (by simp at hlen ⊢; omega), hdup]
    simp only [Bool.false_eq_true, if_false]
    rw [ih (chosen ++ [c]) (by simp at hlen ⊢; omega)
      (by rw [List.append_assoc]; simpa using hnd)]
    simp

/-- C8: for every candidate list with exactly 3 failing and 3 passing
candidates whose keys are pairwise distinct, the four returned `CheckItem`s
are exactly the top-2 failing candidates (stably sorted by weight descending,
then coverage ascending) followed by the top-2 passing candidates (weight
descending, then coverage descending), and their keys are pairwise distinct;
and whenever fewer than 4 candidates with pairwise-distinct keys exist in
total, all of them are returned (as a permutation, in fail-then-pass order). -/
theorem pickFourChecks_spec (candidates : List CheckCandidate) :
    (((candidates.filter fun c => !c.ok).length = 3 ∧
        (candidates.filter fun c => c.ok).length = 3 ∧
        (candidates.map CheckCandidate.key).Nodup) →
      pickFourChecks candidates =
        ((List.insertionSort failOrder (candidates.filter fun c => !c.ok)).take 2 ++
          (List.insertionSort passOrder (candidates.filter fun c => c.ok)).take 2).map
            toCheckItem ∧
      ((pickFourChecks candidates).map ScoreCheckItem.key).Nodup) ∧
    ((candidates.length < 4 ∧ (candidates.map CheckCandidate.key).Nodup) →
      (pickFourChecks candidates).Perm (candidates.map toCheckItem)) := by
  constructor
  · intro ⟨h3f, h3p, hnd⟩
    have lf : (List.insertionSort failOrder (candidates.filter fun c => !c.ok)).length = 3 :=
      (List.length_insertionSort _ _).trans h3f
    have lp : (List.insertionSort passOrder (candidates.filter fun c => c.ok)).length = 3 :=
      (List.length_insertionSort _ _).trans h3p
    have hlen : ((List.insertionSort failOrder (candidates.filter fun c => !c.ok)).take 2 ++
        (List.insertionSort passOrder (candidates.filter fun c => c.ok)).take 2).length = 4 := by
      simp [List.length_take, lf, lp]
    have heq : pickFourChecks candidates =
        ((List.insertionSort failOrder (candidates.filter fun c => !c.ok)).take 2 ++
          (List.insertionSort passOrder (candidates.filter fun c => c.ok)).take 2).map
            toCheckItem := by
      simp only [pickFourChecks]
      rw [if_neg (by omega), List.take_of_length_le (le_of_eq hlen)]
    refine ⟨heq, ?_⟩
    rw [heq]
    have hsub : List.Sublist
        ((List.insertionSort failOrder (candidates.filter fun c => !c.ok)).take 2 ++
          (List.insertionSort passOrder (candidates.filter fun c => c.ok)).take 2)
        ((List.insertionSort failOrder (candidates.filter fun c => !c.ok)) ++
          (List.insertionSort passOrder (candidates.filter fun c => c.ok))) :=
      List.Sublist.append (List.take_sublist _ _) (List.take_sublist _ _)
    have hperm := sorted_parts_perm candidates
    have hnd2 : (((List.insertionSort failOrder (candidates.filter fun c => !c.ok)) ++
        (List.insertionSort passOrder (candidates.filter fun c => c.ok))).map
          CheckCandidate.key).Nodup := ((hperm.map CheckCandidate.key).nodup_iff).mpr hnd
    have hnd3 := hnd2.sublist (hsub.map CheckCandidate.key)
    rw [List.map_map]
    exact hnd3
  · intro ⟨hlen, hnd⟩
    have hall : (((List.insertionSort failOrder (candidates.filter fun c => !c.ok)).take 2 ++
        (List.insertionSort passOrder (candidates.filter fun c => c.ok)).take 2) ++
        ((List.insertionSort failOrder (candidates.filter fun c => !c.ok)).drop 2 ++
          (List.insertionSort passOrder (candidates.filter fun c => c.ok)).drop 2)).Perm
        candidates :=
      (take_drop_shuffle_perm _ _).trans (sorted_parts_perm candidates)
    have hlen2 : (((List.insertionSort failOrder (candidates.filter fun c => !c.ok)).take 2 ++
        (List.insertionSort passOrder (candidates.filter fun c => c.ok)).take 2) ++
        ((List.insertionSort failOrder (candidates.filter fun c => !c.ok)).drop 2 ++
          (List.insertionSort passOrder (candidates.filter fun c => c.ok)).drop 2)).length =
        candidates.length := hall.length_eq
    have hnd2 := ((hall.map CheckCandidate.key).nodup_iff).mpr hnd
    simp only [pickFourChecks]
    rw [if_pos (by simp only [List.length_append] at hlen2 ⊢; omega)]
    rw [backfillChecks_eq_append _ _ (by simp only [List.length_append] at hlen2 ⊢; omega) hnd2]
    rw [List.take_of_length_le (by omega)]
    exact hall.map toCheckItem

/-- C8 (witness): the selection property instantiated at a concrete six-element
candidate list (3 failing, 3 passing, distinct keys) and the exhaustive-return
property at a concrete three-element list. -/
theorem pickFourChecks_witness :
    (pickFourChecks candSix =
      ((List.insertionSort failOrder (candSix.filter fun c => !c.ok)).take 2 ++
        (List.insertionSort passOrder (candSix.filter fun c => c.ok)).take 2).map
          toCheckItem ∧
      ((pickFourChecks candSix).map ScoreCheckItem.key).Nodup) ∧
    (pickFourChecks candThree).Perm (candThree.map toCheckItem) :=
  ⟨(pickFourChecks_spec candSix).1 ⟨by decide, by decide, by decide⟩,
   (pickFourChecks_spec candThree).2 ⟨by decide, by decide⟩⟩

end ClinicAI
